import Mathlib

/-!
Shallow embedding of the token-lifecycle / cache core of the
MagistracyHomeworks repository (files `hw11t9/routers/auth.py`,
`hw11_13t9/security.py`, `hw11_13t9/models.py`, `hw11_13t9/repositories.py`,
`hw11-13t9/cache.py`, `hw11-13t9/routers/students.py`), together with
theorems settling the specification claims.

Modelling conventions:
* `datetime` values are absolute timestamps in seconds (`Nat`); the single
  authoritative clock reading of a request is passed as a `now` argument.
* SQLAlchemy tables are Lean lists of records; `query(...).filter(...).first()`
  is `List.find?`; a bulk `UPDATE` is `List.map` over the rows.
* `secrets.token_urlsafe` is a nondeterministic generator: the generated
  strings are passed in as arguments, with freshness hypotheses where a claim
  needs the generator's unpredictability.
* Each request handler returns its result together with the post-state, so
  frame conditions are statable.
-/

namespace Magistracy

/-! ### SHA-256 over `Nat` words (machine words are `Nat` reduced mod `2^32`) -/

def w32 (n : Nat) : Nat := n % 4294967296

def rotr32 (n x : Nat) : Nat := (x / 2 ^ n) + (x % 2 ^ n) * 2 ^ (32 - n)

def shr32 (n x : Nat) : Nat := x / 2 ^ n

def not32 (x : Nat) : Nat := Nat.xor x 4294967295

def smallSigma0 (x : Nat) : Nat :=
  Nat.xor (Nat.xor (rotr32 7 x) (rotr32 18 x)) (shr32 3 x)

def smallSigma1 (x : Nat) : Nat :=
  Nat.xor (Nat.xor (rotr32 17 x) (rotr32 19 x)) (shr32 10 x)

def bigSigma0 (x : Nat) : Nat :=
  Nat.xor (Nat.xor (rotr32 2 x) (rotr32 13 x)) (rotr32 22 x)

def bigSigma1 (x : Nat) : Nat :=
  Nat.xor (Nat.xor (rotr32 6 x) (rotr32 11 x)) (rotr32 25 x)

def chFn (x y z : Nat) : Nat :=
  Nat.xor (Nat.land x y) (Nat.land (not32 x) z)

def majFn (x y z : Nat) : Nat :=
  Nat.xor (Nat.xor (Nat.land x y) (Nat.land x z)) (Nat.land y z)

def sha256K : List Nat :=
  [1116352408, 1899447441, 3049323471, 3921009573, 961987163,
   1508970993, 2453635748, 2870763221, 3624381080, 310598401,
   607225278, 1426881987, 1925078388, 2162078206, 2614888103,
   3248222580, 3835390401, 4022224774, 264347078, 604807628,
   770255983, 1249150122, 1555081692, 1996064986, 2554220882,
   2821834349, 2952996808, 3210313671, 3336571891, 3584528711,
   113926993, 338241895, 666307205, 773529912, 1294757372,
   1396182291, 1695183700, 1986661051, 2177026350, 2456956037,
   2730485921, 2820302411, 3259730800, 3345764771, 3516065817,
   3600352804, 4094571909, 275423344, 430227734, 506948616,
   659060556, 883997877, 958139571, 1322822218, 1537002063,
   1747873779, 1955562222, 2024104815, 2227730452, 2361852424,
   2428436474, 2756734187, 3204031479, 3329325298]

def sha256H0 : List Nat :=
  [1779033703, 3144134277, 1013904242, 2773480762, 1359893119,
   2600822924, 528734635, 1541459225]

/-- Extend a 16-word block to the 64-word message schedule. -/
def sha256Schedule (ws : List Nat) : List Nat :=
  (List.range 48).foldl
    (fun acc _ =>
      let n := acc.length
      let w := w32 (smallSigma1 (acc.getD (n - 2) 0) + acc.getD (n - 7) 0 +
                    smallSigma0 (acc.getD (n - 15) 0) + acc.getD (n - 16) 0)
      acc ++ [w])
    ws

/-- One compression round; the state is the tuple (a,b,c,d,e,f,g,h). -/
def sha256Round (st : Nat × Nat × Nat × Nat × Nat × Nat × Nat × Nat)
    (kw : Nat × Nat) : Nat × Nat × Nat × Nat × Nat × Nat × Nat × Nat :=
  let (a, b, c, d, e, f, g, h) := st
  let (k, w) := kw
  let t1 := w32 (h + bigSigma1 e + chFn e f g + k + w)
  let t2 := w32 (bigSigma0 a + majFn a b c)
  (w32 (t1 + t2), a, b, c, w32 (d + t1), e, f, g)

/-- Compress one 16-word block into the running 8-word hash state. -/
def sha256Compress (hs : List Nat) (block : List Nat) : List Nat :=
  let ws := sha256Schedule block
  let a0 := hs.getD 0 0
  let b0 := hs.getD 1 0
  let c0 := hs.getD 2 0
  let d0 := hs.getD 3 0
  let e0 := hs.getD 4 0
  let f0 := hs.getD 5 0
  let g0 := hs.getD 6 0
  let h0 := hs.getD 7 0
  let (a, b, c, d, e, f, g, h) :=
    (sha256K.zip ws).foldl sha256Round (a0, b0, c0, d0, e0, f0, g0, h0)
  [w32 (a0 + a), w32 (b0 + b), w32 (c0 + c), w32 (d0 + d),
   w32 (e0 + e), w32 (f0 + f), w32 (g0 + g), w32 (h0 + h)]

/-- Big-endian 8-byte encoding of a number (the message-length field). -/
def be64 (n : Nat) : List Nat :=
  [n / 2 ^ 56 % 256, n / 2 ^ 48 % 256, n / 2 ^ 40 % 256, n / 2 ^ 32 % 256,
   n / 2 ^ 24 % 256, n / 2 ^ 16 % 256, n / 2 ^ 8 % 256, n % 256]

/-- SHA-256 padding of a byte string. -/
def sha256Pad (msg : List Nat) : List Nat :=
  let padLen := (64 - (msg.length + 9) % 64) % 64
  msg ++ [0x80] ++ List.replicate padLen 0 ++ be64 (8 * msg.length)

/-- Group 4 big-endian bytes into one 32-bit word. -/
def bytesToWords : List Nat → List Nat
  | b0 :: b1 :: b2 :: b3 :: rest =>
      (b0 * 2 ^ 24 + b1 * 2 ^ 16 + b2 * 2 ^ 8 + b3) :: bytesToWords rest
  | _ => []

def sha256Words (msg : List Nat) : List Nat :=
  let ws := bytesToWords (sha256Pad msg)
  (List.range (ws.length / 16)).foldl
    (fun hs i => sha256Compress hs ((ws.drop (16 * i)).take 16)) sha256H0

def hexDigit (n : Nat) : Char :=
  if n < 10 then Char.ofNat (48 + n) else Char.ofNat (87 + n)

def byteToHex (b : Nat) : List Char := [hexDigit (b / 16), hexDigit (b % 16)]

def wordToBytes (w : Nat) : List Nat :=
  [w / 2 ^ 24 % 256, w / 2 ^ 16 % 256, w / 2 ^ 8 % 256, w % 256]

/-- Embeds `hashlib.sha256(data).hexdigest()` for a byte string `data`. -/
def sha256Hex (msg : List Nat) : String :=
  ⟨((sha256Words msg).foldr (fun w acc => wordToBytes w ++ acc) []).foldr
      (fun b acc => byteToHex b ++ acc) []⟩

/-- UTF-8 encoding of a single Unicode code point (Python `str.encode("utf-8")`). -/
def utf8Char (c : Char) : List Nat :=
  let n := c.toNat
  if n < 0x80 then [n]
  else if n < 0x800 then [0xC0 + n / 64, 0x80 + n % 64]
  else if n < 0x10000 then
    [0xE0 + n / 4096, 0x80 + n / 64 % 64, 0x80 + n % 64]
  else
    [0xF0 + n / 262144, 0x80 + n / 4096 % 64, 0x80 + n / 64 % 64, 0x80 + n % 64]

def utf8Encode (s : String) : List Nat :=
  (s.data.map utf8Char).foldr (· ++ ·) []

/-! ### `hw11_13t9/security.py`: password hashing -/

def PASSWORD_SALT : String := "very-secret-salt-for-homework"

def ACCESS_TOKEN_LIFETIME_MINUTES : Nat := 15

def REFRESH_TOKEN_LIFETIME_DAYS : Nat := 7

/-- Function `hash_password`: SHA-256 hex digest of the constant salt prepended to the
raw password, both UTF-8 encoded. -/
def hash_password (raw : String) : String :=
  sha256Hex (utf8Encode (PASSWORD_SALT ++ raw))

/-- Function `verify_password`: recompute and compare. -/
def verify_password (raw hashed : String) : Bool :=
  hash_password raw == hashed

/-! ### `hw11_13t9/models.py`: the data model -/

/-- Row of the `users` table. -/
structure User where
  id : Nat
  username : String
  password_hash : String
  is_readonly : Bool
  is_active : Bool
deriving DecidableEq

/-- Row of the `tokens` table (a stored access/refresh token pair). -/
structure Token where
  id : Nat
  user_id : Nat
  access_token : String
  refresh_token : String
  access_expires_at : Nat
  refresh_expires_at : Nat
  is_active : Bool
deriving DecidableEq

/-- The relational store backing the auth subsystem: `users` and `tokens`. -/
structure DB where
  users : List User
  tokens : List Token
deriving DecidableEq

/-- Embeds `db.query(User).filter(User.username == name).first()`. -/
def findUser (db : DB) (uname : String) : Option User :=
  db.users.find? (fun u => u.username == uname)

/-- The `token.user` relationship: the row of `users` the token's foreign key
points to. -/
def userOf (db : DB) (t : Token) : Option User :=
  db.users.find? (fun u => u.id == t.user_id)

/-- Embeds `db.query(Token).filter(Token.user_id == uid).update({"is_active": False})`. -/
def deactivateUserTokens (db : DB) (uid : Nat) : DB :=
  { db with
    tokens := db.tokens.map (fun t =>
      if t.user_id == uid then { t with is_active := false } else t) }

/-- Autoincrement primary key for a new `tokens` row. -/
def freshTokenId (db : DB) : Nat :=
  db.tokens.foldr (fun t m => max t.id m) 0 + 1

/-- The error kinds of spec section 7 that the embedded handlers raise. -/
inductive AppError where
  | duplicateUsername
  | invalidCredentials
  | unauthenticated
  | forbidden
  | notFound
deriving DecidableEq

/-! ### `hw11t9/routers/auth.py`: token lifecycle operations -/

/-- Handler `login_user` (the issue operation). `freshA`/`freshR` are the two strings
produced by `generate_token_pair()`; `now` is the clock reading. Returns the
response and the post-state. -/
def login (db : DB) (uname pwd freshA freshR : String) (now : Nat) :
    Except AppError (String × String) × DB :=
  match findUser db uname with
  | none => (.error .invalidCredentials, db)
  | some u =>
    if verify_password pwd u.password_hash then
      let db1 := deactivateUserTokens db u.id
      let tok : Token :=
        { id := freshTokenId db1
          user_id := u.id
          access_token := freshA
          refresh_token := freshR
          access_expires_at := now + ACCESS_TOKEN_LIFETIME_MINUTES * 60
          refresh_expires_at := now + REFRESH_TOKEN_LIFETIME_DAYS * 86400
          is_active := true }
      (.ok (freshA, freshR), { db1 with tokens := db1.tokens ++ [tok] })
    else
      (.error .invalidCredentials, db)

/-- Handler `refresh_tokens` (the rotate operation). The matched row is updated in
place (all four rotated fields); `userOf = none` cannot occur under the
foreign-key invariant and is mapped to the same 401 the surrounding
condition raises. -/
def refresh (db : DB) (r freshA freshR : String) (now : Nat) :
    Except AppError (String × String) × DB :=
  match db.tokens.find? (fun t => t.refresh_token == r && t.is_active) with
  | none => (.error .unauthenticated, db)
  | some t =>
    if t.refresh_expires_at < now then (.error .unauthenticated, db)
    else
      match userOf db t with
      | none => (.error .unauthenticated, db)
      | some u =>
        if u.is_active then
          let t' : Token :=
            { t with
              access_token := freshA
              refresh_token := freshR
              access_expires_at := now + ACCESS_TOKEN_LIFETIME_MINUTES * 60
              refresh_expires_at := now + REFRESH_TOKEN_LIFETIME_DAYS * 86400 }
          (.ok (freshA, freshR),
            { db with
              tokens := db.tokens.map (fun x => if x.id == t.id then t' else x) })
        else (.error .unauthenticated, db)

/-- Dependency `get_current_token` from `hw11_13t9/security.py`, from the point where the
token string has been extracted from the request. The `userOf = none` branch
cannot occur under the foreign-key invariant. -/
def get_current_token (db : DB) (s : String) (now : Nat) :
    Except AppError Token × DB :=
  match db.tokens.find? (fun t => t.access_token == s && t.is_active) with
  | none => (.error .unauthenticated, db)
  | some t =>
    if t.access_expires_at < now then (.error .unauthenticated, db)
    else
      match userOf db t with
      | none => (.error .unauthenticated, db)
      | some u =>
        if u.is_active then (.ok t, db) else (.error .unauthenticated, db)

/-- Dependency `get_current_user` (validateAccess): the owning user of the validated
token. -/
def get_current_user (db : DB) (s : String) (now : Nat) :
    Except AppError User × DB :=
  match get_current_token db s now with
  | (.ok t, db') =>
    match userOf db' t with
    | some u => (.ok u, db')
    | none => (.error .unauthenticated, db')
  | (.error e, db') => (.error e, db')

/-- Dependency `require_write_user`: the capability check. -/
def require_write_user (u : User) : Except AppError User :=
  if u.is_readonly then .error .forbidden else .ok u

/-- Handler `logout` (the revoke operation) applied to a token pair identified by its
primary key: `token_obj.is_active = False; db.commit()`. -/
def revoke (db : DB) (tokId : Nat) : DB :=
  { db with
    tokens := db.tokens.map (fun t =>
      if t.id == tokId then { t with is_active := false } else t) }

/-! ### `hw11-13t9/cache.py`: the Redis cache -/

/-- Redis glob matching (`scan_iter(pattern)`): literal characters, `?`
matching any one character and `*` matching any run (structural recursion on
the pattern; `*` tries every split of the remaining key). -/
def globMatch : List Char → List Char → Bool
  | [], ks => ks.isEmpty
  | p :: ps, ks =>
      if p = '*' then
        (List.range (ks.length + 1)).any fun i => globMatch ps (ks.drop i)
      else if p = '?' then
        match ks with
        | [] => false
        | _ :: ks' => globMatch ps ks'
      else
        match ks with
        | [] => false
        | c :: ks' => p == c && globMatch ps ks'

/-- One key/value entry with its absolute expiry time (`setex` stores a TTL;
we record `now + ttl`). -/
structure CacheEntry where
  key : String
  value : String
  expires_at : Nat
deriving DecidableEq

/-- Embeds `redis_client.get(key)`: the stored value, provided the TTL window has not
elapsed. -/
def cacheGet (c : List CacheEntry) (k : String) (now : Nat) : Option String :=
  match c.find? (fun e => e.key == k) with
  | some e => if now < e.expires_at then some e.value else none
  | none => none

/-- Embeds `redis_client.setex(key, ttl, value)`: store with expiry, replacing any
previous entry under the same key. -/
def cacheSetex (c : List CacheEntry) (k : String) (ttl : Nat) (v : String)
    (now : Nat) : List CacheEntry :=
  { key := k, value := v, expires_at := now + ttl } ::
    c.filter (fun e => e.key != k)

/-- Embeds `for key in scan_iter(pattern): delete(key)`: drop every entry whose key
matches the glob pattern. -/
def cacheInvalidate (c : List CacheEntry) (pat : String) : List CacheEntry :=
  c.filter (fun e => !globMatch pat.data e.key.data)

/-- Function `invalidate_students_cache()`: purge everything under `students:*`. -/
def invalidate_students_cache (c : List CacheEntry) : List CacheEntry :=
  cacheInvalidate c "students:*"

/-! ### `hw11_13t9/models.py` / `repositories.py`: the students store -/

/-- Row of the `students` table; the `float` grade is embedded as `Rat`. -/
structure Student where
  id : Nat
  last_name : String
  first_name : String
  faculty : String
  course : String
  grade : Rat
deriving DecidableEq

/-- Schema `StudentCreate` payload. -/
structure StudentCreate where
  last_name : String
  first_name : String
  faculty : String
  course : String
  grade : Rat
deriving DecidableEq

/-- Schema `StudentUpdate` payload: every field optional (`exclude_unset`). -/
structure StudentUpdate where
  last_name : Option String
  first_name : Option String
  faculty : Option String
  course : Option String
  grade : Option Rat
deriving DecidableEq

def freshStudentId (store : List Student) : Nat :=
  store.foldr (fun s m => max s.id m) 0 + 1

/-- Embeds `StudentsRepository.create`. -/
def repoCreate (store : List Student) (d : StudentCreate) :
    Student × List Student :=
  let s : Student :=
    { id := freshStudentId store
      last_name := d.last_name
      first_name := d.first_name
      faculty := d.faculty
      course := d.course
      grade := d.grade }
  (s, store ++ [s])

/-- Embeds `StudentsRepository.get`. -/
def repoGet (store : List Student) (sid : Nat) : Option Student :=
  store.find? (fun s => s.id == sid)

/-- Embeds `setattr(student, field, value)` for each field present in the payload. -/
def applyUpdate (s : Student) (d : StudentUpdate) : Student :=
  { s with
    last_name := d.last_name.getD s.last_name
    first_name := d.first_name.getD s.first_name
    faculty := d.faculty.getD s.faculty
    course := d.course.getD s.course
    grade := d.grade.getD s.grade }

/-- Embeds `StudentsRepository.update`: in-place merge of the present fields, `none`
when the id is absent. -/
def repoUpdate (store : List Student) (sid : Nat) (d : StudentUpdate) :
    Option Student × List Student :=
  match repoGet store sid with
  | none => (none, store)
  | some s =>
    let s' := applyUpdate s d
    (some s', store.map (fun x => if x.id == sid then s' else x))

/-- Embeds `StudentsRepository.delete`. -/
def repoDelete (store : List Student) (sid : Nat) : Bool × List Student :=
  match repoGet store sid with
  | none => (false, store)
  | some _ => (true, store.filter (fun x => x.id != sid))

/-! ### `hw11-13t9/routers/students.py`: handlers

Each handler takes the principal already authenticated by
`get_current_user` and threads the students store and the cache. The
`require_write_user` dependency is resolved before the handler body runs, so
a read-only principal is rejected with `Forbidden` before any store access. -/

/-- Handler for `POST /students` (`create_student`). -/
def create_student (u : User) (payload : StudentCreate)
    (store : List Student) (cache : List CacheEntry) :
    Except AppError Student × List Student × List CacheEntry :=
  match require_write_user u with
  | .error e => (.error e, store, cache)
  | .ok _ =>
    let (s, store') := repoCreate store payload
    (.ok s, store', invalidate_students_cache cache)

/-- Handler for `PUT /students/{id}` (`update_student`). -/
def update_student (u : User) (sid : Nat) (payload : StudentUpdate)
    (store : List Student) (cache : List CacheEntry) :
    Except AppError Student × List Student × List CacheEntry :=
  match require_write_user u with
  | .error e => (.error e, store, cache)
  | .ok _ =>
    match repoUpdate store sid payload with
    | (none, store') => (.error .notFound, store', cache)
    | (some s, store') => (.ok s, store', invalidate_students_cache cache)

/-- Handler for `DELETE /students/{id}` (`delete_student`). -/
def delete_student (u : User) (sid : Nat)
    (store : List Student) (cache : List CacheEntry) :
    Except AppError Unit × List Student × List CacheEntry :=
  match require_write_user u with
  | .error e => (.error e, store, cache)
  | .ok _ =>
    match repoDelete store sid with
    | (false, store') => (.error .notFound, store', cache)
    | (true, store') => (.ok (), store', invalidate_students_cache cache)

/-- Serialization of a student record for the cache payload (the JSON body is
abstracted to a concrete field rendering; its shape is irrelevant to the
claims). -/
def renderStudent (s : Student) : String :=
  toString s.id ++ ";" ++ s.last_name ++ ";" ++ s.first_name ++ ";" ++
    s.faculty ++ ";" ++ s.course ++ ";" ++ toString s.grade

def renderStudents (ss : List Student) : String :=
  (ss.map renderStudent).foldr (fun a b => a ++ "|" ++ b) ""

/-- Handler for `GET /students` (`list_students`): read-through with a 60-second TTL. -/
def list_students (store : List Student) (cache : List CacheEntry)
    (now : Nat) : String × List CacheEntry :=
  match cacheGet cache "students:list" now with
  | some v => (v, cache)
  | none =>
    let data := renderStudents store
    (data, cacheSetex cache "students:list" 60 data now)

/-- Handler for `GET /students/{id}` (`get_student`): read-through with a 60-second TTL. -/
def get_student (sid : Nat) (store : List Student) (cache : List CacheEntry)
    (now : Nat) : Except AppError String × List CacheEntry :=
  match cacheGet cache ("students:" ++ toString sid) now with
  | some v => (.ok v, cache)
  | none =>
    match repoGet store sid with
    | none => (.error .notFound, cache)
    | some s =>
      (.ok (renderStudent s),
        cacheSetex cache ("students:" ++ toString sid) 60 (renderStudent s) now)

/-- A CSV row after `csv.DictReader`, with the `float(...)` parse of the grade
column abstracted to its `Option` outcome. -/
structure CSVRow where
  lastName : Option String
  firstName : Option String
  faculty : Option String
  course : Option String
  grade : Option Rat
deriving DecidableEq

/-- The per-row filter and insert of `import_students_from_csv_task`. -/
def importRow (store : List Student) (row : CSVRow) : List Student :=
  match row.lastName, row.firstName with
  | some ln, some fn =>
    if ln = "" ∨ fn = "" then store
    else
      match row.course with
      | none => store
      | some c =>
        if c = "" then store
        else
          match row.grade with
          | none => store
          | some g =>
            (repoCreate store
              { last_name := ln, first_name := fn,
                faculty := (row.faculty.getD ""), course := c, grade := g }).2
  | _, _ => store

/-- Task `import_students_from_csv_task`: insert the valid rows, commit, then
invalidate the students cache. -/
def import_students_from_csv_task (rows : List CSVRow)
    (store : List Student) (cache : List CacheEntry) :
    List Student × List CacheEntry :=
  (rows.foldl importRow store, invalidate_students_cache cache)

/-- Task `bulk_delete_students_task`: with an empty id list the task returns before
touching the database; otherwise it deletes and invalidates. -/
def bulk_delete_students_task (ids : List Nat)
    (store : List Student) (cache : List CacheEntry) :
    List Student × List CacheEntry :=
  if ids.isEmpty then (store, cache)
  else
    (store.filter (fun s => !ids.contains s.id), invalidate_students_cache cache)

/-- Handler for `POST /students/import-csv`: capability check, then the deferred task
(the background execution is composed in, since it is the only state
effect). -/
def import_students_endpoint (u : User) (rows : List CSVRow)
    (store : List Student) (cache : List CacheEntry) :
    Except AppError Unit × List Student × List CacheEntry :=
  match require_write_user u with
  | .error e => (.error e, store, cache)
  | .ok _ =>
    let (store', cache') := import_students_from_csv_task rows store cache
    (.ok (), store', cache')

/-- Handler for `POST /students/bulk-delete`: capability check; an empty id list is
answered without scheduling anything. -/
def bulk_delete_endpoint (u : User) (ids : List Nat)
    (store : List Student) (cache : List CacheEntry) :
    Except AppError Unit × List Student × List CacheEntry :=
  match require_write_user u with
  | .error e => (.error e, store, cache)
  | .ok _ =>
    if ids.isEmpty then (.ok (), store, cache)
    else
      let (store', cache') := bulk_delete_students_task ids store cache
      (.ok (), store', cache')

/-- SHA-256 sanity check against the FIPS 180-2 test vector for "abc". -/
theorem sha256_testvector_abc :
    sha256Hex (utf8Encode "abc") =
      "ba7816bf8f01cfea414140de5dae2223b00361a396177a9cb410ff61f20015ad" := by
  decide

/-! ### Helper lemmas -/

lemma get_current_token_snd (db : DB) (s : String) (now : Nat) :
    (get_current_token db s now).2 = db := by
  unfold get_current_token
  split
  · rfl
  · split
    · rfl
    · split
      · rfl
      · split <;> rfl

lemma get_current_user_snd (db : DB) (s : String) (now : Nat) :
    (get_current_user db s now).2 = db := by
  unfold get_current_user
  split
  next t db' heq =>
    have h2 := get_current_token_snd db s now
    rw [heq] at h2
    split <;> exact h2
  next e db' heq =>
    have h2 := get_current_token_snd db s now
    rw [heq] at h2
    exact h2

/-! ### Claim theorems -/

/-- C9: validateAccess is side-effect free on the token store: successful
or failed validation returns the state unchanged, so no stored `TokenPair`
field (in particular neither expiry timestamp) is ever modified — no sliding
expiration. -/
theorem C9_validateAccess_pure (db : DB) (s : String) (now : Nat) :
    (get_current_token db s now).2 = db ∧ (get_current_user db s now).2 = db :=
  ⟨get_current_token_snd db s now, get_current_user_snd db s now⟩

/-- C4: revoke (logout) is idempotent: revoking the same pair twice yields
the same end state as revoking it once, every revoked row is inactive, and the
second invocation is a total no-op (it raises nothing). -/
theorem C4_revoke_idempotent (db : DB) (tokId : Nat) :
    revoke (revoke db tokId) tokId = revoke db tokId ∧
    ∀ t ∈ (revoke db tokId).tokens, t.id = tokId → t.is_active = false := by
  constructor
  · simp only [revoke, List.map_map]
    congr 1
    apply List.map_congr_left
    intro t _
    by_cases h : t.id = tokId <;> simp [h]
  · intro t ht hid
    simp only [revoke, List.mem_map] at ht
    obtain ⟨x, -, rfl⟩ := ht
    by_cases h : x.id = tokId
    · simp [h]
    · simp only [beq_iff_eq, h, if_false] at hid ⊢

def userW : User :=
  { id := 1, username := "bob", password_hash := hash_password "secret123",
    is_readonly := false, is_active := true }

def tokW (act : Bool) : Token :=
  { id := 1, user_id := 1, access_token := "acc1", refresh_token := "ref1",
    access_expires_at := 1000, refresh_expires_at := 2000, is_active := act }

def dbW : DB := { users := [userW], tokens := [tokW true] }

theorem C4_revoke_idempotent_witness :
    revoke (revoke dbW 1) 1 = revoke dbW 1 ∧ (tokW false).is_active = false :=
  ⟨(C4_revoke_idempotent dbW 1).1,
   (C4_revoke_idempotent dbW 1).2 (tokW false) (by decide) (by decide)⟩

/-- C10: password hashing is the SHA-256 hex digest of one process-wide
constant salt prepended to the raw password; verification succeeds exactly
when the stored hash equals that digest; and the function is deterministic, so
equal passwords hash identically (no per-user salt). -/
theorem C10_password_hashing :
    (∀ raw, hash_password raw = sha256Hex (utf8Encode (PASSWORD_SALT ++ raw))) ∧
    (∀ raw hashed, verify_password raw hashed = true ↔ hashed = hash_password raw) ∧
    (∀ p q, p = q → hash_password p = hash_password q) := by
  refine ⟨fun raw => rfl, fun raw hashed => ?_, fun p q h => by rw [h]⟩
  unfold verify_password
  rw [beq_iff_eq]
  exact eq_comm

theorem C10_password_hashing_witness :
    verify_password "secret123" (hash_password "secret123") = true ∧
    hash_password "secret123" = hash_password "secret123" :=
  ⟨(C10_password_hashing.2.1 "secret123" (hash_password "secret123")).mpr rfl,
   C10_password_hashing.2.2 "secret123" "secret123" rfl⟩

/-- C8: a login with an unknown username or a non-verifying password fails
with InvalidCredentials and returns the token store unchanged: no row is
inserted and no pair is deactivated. -/
theorem C8_login_bad_credentials (db : DB) (uname pwd a r : String) (now : Nat)
    (h : findUser db uname = none ∨
      ∃ u, findUser db uname = some u ∧ verify_password pwd u.password_hash = false) :
    login db uname pwd a r now = (.error .invalidCredentials, db) := by
  unfold login
  rcases h with h | ⟨u, hu, hv⟩
  · rw [h]
  · rw [hu]
    simp [hv]

theorem C8_login_bad_credentials_witness :
    login dbW "bob" "wrongpass" "a2" "r2" 500 = (.error .invalidCredentials, dbW) :=
  C8_login_bad_credentials dbW "bob" "wrongpass" "a2" "r2" 500
    (Or.inr ⟨userW, by decide, by decide⟩)

lemma filter_deactivated (ts : List Token) (uid : Nat) :
    ((ts.map (fun t =>
        if t.user_id == uid then { t with is_active := false } else t)).filter
      (fun t => t.user_id == uid && t.is_active)) = [] := by
  rw [List.filter_eq_nil_iff]
  intro t ht
  obtain ⟨x, hx, rfl⟩ := List.mem_map.mp ht
  by_cases h : x.user_id = uid <;> simp [h]

/-- Reduction of `login` once the user row has been found. -/
lemma login_found (db : DB) (uname pwd a r : String) (now : Nat) (u : User)
    (hu : findUser db uname = some u) :
    login db uname pwd a r now =
      if verify_password pwd u.password_hash then
        (.ok (a, r),
          { users := (deactivateUserTokens db u.id).users,
            tokens := (deactivateUserTokens db u.id).tokens ++
              [{ id := freshTokenId (deactivateUserTokens db u.id),
                 user_id := u.id, access_token := a, refresh_token := r,
                 access_expires_at := now + ACCESS_TOKEN_LIFETIME_MINUTES * 60,
                 refresh_expires_at := now + REFRESH_TOKEN_LIFETIME_DAYS * 86400,
                 is_active := true }] })
      else (.error .invalidCredentials, db) := by
  unfold login
  rw [hu]

lemma mem_deactivated (ts : List Token) (uid : Nat) (t : Token)
    (ht : t ∈ ts.map (fun x =>
      if x.user_id == uid then { x with is_active := false } else x))
    (h1 : t.user_id = uid) : t.is_active = false := by
  obtain ⟨x, hx, rfl⟩ := List.mem_map.mp ht
  by_cases h : x.user_id = uid <;> simp_all

/-- C1: after a successful login of a user, at most one active token pair
for that user exists: every previously stored pair of the user was
deactivated inside the same request, and the only remaining active pair
carries the freshly generated token values. -/
theorem C1_login_single_active_pair (db : DB) (uname pwd a r : String)
    (now : Nat) (u : User) (res : String × String) (db' : DB)
    (hu : findUser db uname = some u)
    (hlogin : login db uname pwd a r now = (.ok res, db')) :
    (db'.tokens.filter (fun t => t.user_id == u.id && t.is_active)).length ≤ 1 ∧
    ∀ t ∈ db'.tokens, t.user_id = u.id → t.is_active = true →
      t.access_token = a ∧ t.refresh_token = r := by
  rw [login_found db uname pwd a r now u hu] at hlogin
  by_cases hv : verify_password pwd u.password_hash
  · rw [if_pos hv] at hlogin
    simp only [Prod.mk.injEq, Except.ok.injEq] at hlogin
    obtain ⟨hres, hdb⟩ := hlogin
    subst hdb
    constructor
    · rw [deactivateUserTokens]
      simp only [List.filter_append, filter_deactivated, List.nil_append]
      simp
    · intro t ht h1 h2
      rw [deactivateUserTokens] at ht
      simp only [List.mem_append, List.mem_singleton] at ht
      rcases ht with hL | hR
      · exact absurd h2 (by rw [mem_deactivated db.tokens u.id t hL h1]; decide)
      · subst hR
        exact ⟨rfl, rfl⟩
  · rw [if_neg hv] at hlogin
    exact absurd hlogin (by simp)

def dbW' : DB :=
  { users := [userW],
    tokens := [tokW false,
      { id := 2, user_id := 1, access_token := "a2", refresh_token := "r2",
        access_expires_at := 1400, refresh_expires_at := 605300,
        is_active := true }] }

theorem C1_login_single_active_pair_witness :
    findUser dbW "bob" = some userW ∧
    (dbW'.tokens.filter
      (fun t => t.user_id == userW.id && t.is_active)).length ≤ 1 :=
  ⟨by decide,
   (C1_login_single_active_pair dbW "bob" "secret123" "a2" "r2" 500 userW
      ("a2", "r2") dbW' (by decide) (by rfl)).1⟩

lemma get_current_token_notfound (db : DB) (s : String) (now : Nat)
    (hfind : db.tokens.find? (fun t => t.access_token == s && t.is_active) =
      none) :
    get_current_token db s now = (.error .unauthenticated, db) := by
  unfold get_current_token
  rw [hfind]

lemma get_current_token_found (db : DB) (s : String) (now : Nat) (t : Token)
    (hfind : db.tokens.find? (fun t => t.access_token == s && t.is_active) =
      some t) :
    get_current_token db s now =
      if t.access_expires_at < now then (.error .unauthenticated, db)
      else
        match userOf db t with
        | none => (.error .unauthenticated, db)
        | some u =>
          if u.is_active then (.ok t, db) else (.error .unauthenticated, db) := by
  unfold get_current_token
  rw [hfind]

lemma get_current_token_found_user (db : DB) (s : String) (now : Nat)
    (t : Token) (u : User)
    (hfind : db.tokens.find? (fun t => t.access_token == s && t.is_active) =
      some t)
    (hexp : ¬t.access_expires_at < now) (hu : userOf db t = some u) :
    get_current_token db s now =
      if u.is_active then (.ok t, db) else (.error .unauthenticated, db) := by
  rw [get_current_token_found db s now t hfind, if_neg hexp, hu]

lemma get_current_user_err (db : DB) (s : String) (now : Nat) (e : AppError)
    (hGCT : get_current_token db s now = (.error e, db)) :
    get_current_user db s now = (.error e, db) := by
  unfold get_current_user
  rw [hGCT]

lemma get_current_user_of_token (db : DB) (s : String) (now : Nat) (t : Token)
    (hGCT : get_current_token db s now = (.ok t, db)) :
    get_current_user db s now =
      (match userOf db t with
        | some u => (.ok u, db)
        | none => (.error .unauthenticated, db)) := by
  unfold get_current_user
  rw [hGCT]

lemma get_current_user_found_user (db : DB) (s : String) (now : Nat)
    (t : Token) (u : User)
    (hGCT : get_current_token db s now = (.ok t, db))
    (hu : userOf db t = some u) :
    get_current_user db s now = (.ok u, db) := by
  rw [get_current_user_of_token db s now t hGCT, hu]

/-- C3: validateAccess fails with Unauthenticated exactly when no stored
pair with `is_active = true` carries the presented access-token string, or the
matching pair's `access_expires_at` is earlier than the clock reading, or the
owning user is inactive (in particular an expired but still-active row is
rejected); on success it returns the owning user of the matching pair. -/
theorem C3_validateAccess_iff (db : DB) (s : String) (now : Nat)
    (hA : (db.tokens.map Token.access_token).Nodup)
    (hFK : ∀ t ∈ db.tokens, (userOf db t).isSome = true) :
    ((get_current_user db s now).1 = .error .unauthenticated ↔
      (∀ t ∈ db.tokens, ¬(t.access_token = s ∧ t.is_active = true)) ∨
      (∃ t ∈ db.tokens, t.access_token = s ∧ t.is_active = true ∧
        (t.access_expires_at < now ∨
          ∃ u, userOf db t = some u ∧ u.is_active = false))) ∧
    (∀ u, (get_current_user db s now).1 = .ok u →
      ∃ t ∈ db.tokens, t.access_token = s ∧ t.is_active = true ∧
        userOf db t = some u) := by
  cases hfind : db.tokens.find? (fun t => t.access_token == s && t.is_active) with
  | none =>
    have hGCU := get_current_user_err db s now .unauthenticated
      (get_current_token_notfound db s now hfind)
    have hnone := List.find?_eq_none.mp hfind
    constructor
    · rw [hGCU]
      refine iff_of_true rfl (Or.inl fun t ht ⟨h1, h2⟩ => hnone t ht ?_)
      simp [h1, h2]
    · intro u h
      rw [hGCU] at h
      exact absurd h (by simp)
  | some t =>
    have htmem := List.mem_of_find?_eq_some hfind
    have htp := List.find?_some hfind
    rw [Bool.and_eq_true, beq_iff_eq] at htp
    obtain ⟨hts, hta⟩ := htp
    have huniq : ∀ x ∈ db.tokens, x.access_token = s → x = t := fun x hx hxs =>
      List.inj_on_of_nodup_map hA hx htmem (by rw [hxs, hts])
    by_cases hexp : t.access_expires_at < now
    · have hGCT := get_current_token_found db s now t hfind
      rw [if_pos hexp] at hGCT
      have hGCU := get_current_user_err db s now .unauthenticated hGCT
      constructor
      · rw [hGCU]
        exact iff_of_true rfl (Or.inr ⟨t, htmem, hts, hta, Or.inl hexp⟩)
      · intro u h
        rw [hGCU] at h
        exact absurd h (by simp)
    · obtain ⟨u, hu⟩ := Option.isSome_iff_exists.mp (hFK t htmem)
      have hGCT := get_current_token_found_user db s now t u hfind hexp hu
      by_cases hua : u.is_active
      · rw [if_pos hua] at hGCT
        have hGCU := get_current_user_found_user db s now t u hGCT hu
        constructor
        · rw [hGCU]
          refine iff_of_false (by simp) ?_
          rintro (hall | ⟨x, hx, hxs, hxa, hcond⟩)
          · exact hall t htmem ⟨hts, hta⟩
          · rcases huniq x hx hxs with rfl
            rcases hcond with hx2 | ⟨u2, hu2, hu2a⟩
            · exact hexp hx2
            · rw [hu] at hu2
              cases hu2
              rw [hua] at hu2a
              cases hu2a
        · intro u0 h
          rw [hGCU] at h
          simp only [Except.ok.injEq] at h
          subst h
          exact ⟨t, htmem, hts, hta, hu⟩
      · rw [if_neg hua] at hGCT
        have hGCU := get_current_user_err db s now .unauthenticated hGCT
        constructor
        · rw [hGCU]
          exact iff_of_true rfl
            (Or.inr ⟨t, htmem, hts, hta,
              Or.inr ⟨u, hu, by simpa using hua⟩⟩)
        · intro u0 h
          rw [hGCU] at h
          exact absurd h (by simp)

/-- The in-place rotation of one stored row performed by `refresh_tokens`. -/
def rotateRow (t : Token) (a2 r2 : String) (now : Nat) : Token :=
  { t with
    access_token := a2
    refresh_token := r2
    access_expires_at := now + ACCESS_TOKEN_LIFETIME_MINUTES * 60
    refresh_expires_at := now + REFRESH_TOKEN_LIFETIME_DAYS * 86400 }

/-- The token store after `refresh_tokens` commits: the matched row replaced
in place, every other row untouched. -/
def rotateDB (db : DB) (t : Token) (a2 r2 : String) (now : Nat) : DB :=
  { db with
    tokens := db.tokens.map (fun x =>
      if x.id == t.id then rotateRow t a2 r2 now else x) }

lemma refresh_notfound (db : DB) (r a2 r2 : String) (now : Nat)
    (hfind : db.tokens.find? (fun x => x.refresh_token == r && x.is_active) =
      none) :
    refresh db r a2 r2 now = (.error .unauthenticated, db) := by
  unfold refresh
  rw [hfind]

lemma refresh_found (db : DB) (r a2 r2 : String) (now : Nat) (t : Token)
    (hfind : db.tokens.find? (fun x => x.refresh_token == r && x.is_active) =
      some t) :
    refresh db r a2 r2 now =
      if t.refresh_expires_at < now then (.error .unauthenticated, db)
      else
        match userOf db t with
        | none => (.error .unauthenticated, db)
        | some u =>
          if u.is_active then (.ok (a2, r2), rotateDB db t a2 r2 now)
          else (.error .unauthenticated, db) := by
  unfold refresh
  rw [hfind]
  rfl

lemma refresh_found_user (db : DB) (r a2 r2 : String) (now : Nat) (t : Token)
    (u : User)
    (hfind : db.tokens.find? (fun x => x.refresh_token == r && x.is_active) =
      some t)
    (hexp : ¬t.refresh_expires_at < now) (hu : userOf db t = some u) :
    refresh db r a2 r2 now =
      if u.is_active then (.ok (a2, r2), rotateDB db t a2 r2 now)
      else (.error .unauthenticated, db) := by
  rw [refresh_found db r a2 r2 now t hfind, if_neg hexp, hu]

/-- C2: rotating with an active, unexpired refresh token of an active user
replaces both token values and both expiry timestamps in place on the matched
row (no row is inserted: the token-store row count is unchanged), returns a
pair whose two values differ from the stored pair's values (given fresh
generator output), and afterwards a rotate presenting the old refresh-token
string fails with Unauthenticated, since that string matches no stored pair
any more. -/
theorem C2_rotate_in_place (db : DB) (r a2 r2 : String) (now : Nat)
    (t : Token) (u : User)
    (hrt : (db.tokens.map Token.refresh_token).Nodup)
    (hfreshA : ∀ x ∈ db.tokens, a2 ≠ x.access_token)
    (hfreshR : ∀ x ∈ db.tokens, r2 ≠ x.refresh_token)
    (hfind : db.tokens.find? (fun x => x.refresh_token == r && x.is_active) =
      some t)
    (hexp : ¬t.refresh_expires_at < now)
    (hu : userOf db t = some u)
    (hua : u.is_active = true) :
    refresh db r a2 r2 now = (.ok (a2, r2), rotateDB db t a2 r2 now) ∧
    (rotateDB db t a2 r2 now).tokens.length = db.tokens.length ∧
    (a2 ≠ t.access_token ∧ r2 ≠ t.refresh_token ∧ t.refresh_token = r) ∧
    (∀ a3 r3 now3,
      (refresh (rotateDB db t a2 r2 now) r a3 r3 now3).1 =
        .error .unauthenticated) := by
  have htmem := List.mem_of_find?_eq_some hfind
  have htp := List.find?_some hfind
  rw [Bool.and_eq_true, beq_iff_eq] at htp
  obtain ⟨hts, hta⟩ := htp
  refine ⟨?_, ?_, ⟨hfreshA t htmem, hfreshR t htmem, hts⟩, ?_⟩
  · rw [refresh_found_user db r a2 r2 now t u hfind hexp hu, if_pos hua]
  · rw [rotateDB]
    exact List.length_map _ _
  · intro a3 r3 now3
    have hnone : (rotateDB db t a2 r2 now).tokens.find?
        (fun x => x.refresh_token == r && x.is_active) = none := by
      rw [List.find?_eq_none]
      intro y hy
      rw [rotateDB] at hy
      obtain ⟨x, hx, rfl⟩ := List.mem_map.mp hy
      by_cases hid : x.id = t.id
      · have hr2 : r2 ≠ r := by
          rw [← hts]
          exact hfreshR t htmem
        simp [hid, rotateRow, hr2]
      · have hxt : x ≠ t := fun h => hid (by rw [h])
        have hxr : x.refresh_token ≠ r := fun hxr =>
          hxt (List.inj_on_of_nodup_map hrt hx htmem (by rw [hxr, hts]))
        simp [hid, hxr]
    rw [refresh_notfound _ r a3 r3 now3 hnone]

theorem C2_rotate_in_place_witness :
    (rotateDB dbW (tokW true) "na" "nr" 500).tokens.length =
      dbW.tokens.length ∧
    (refresh (rotateDB dbW (tokW true) "na" "nr" 500) "ref1" "x" "y" 600).1 =
      .error .unauthenticated :=
  ⟨(C2_rotate_in_place dbW "ref1" "na" "nr" 500 (tokW true) userW (by decide)
      (by decide) (by decide) (by decide) (by decide) (by decide)
      (by decide)).2.1,
   (C2_rotate_in_place dbW "ref1" "na" "nr" 500 (tokW true) userW (by decide)
      (by decide) (by decide) (by decide) (by decide) (by decide)
      (by decide)).2.2.2 "x" "y" 600⟩

theorem C3_validateAccess_iff_witness :
    (dbW.tokens.map Token.access_token).Nodup ∧
    (∃ t ∈ dbW.tokens, t.access_token = "acc1" ∧ t.is_active = true ∧
      userOf dbW t = some userW) :=
  ⟨by decide,
   (C3_validateAccess_iff dbW "acc1" 500 (by decide) (by decide)).2 userW
     (by rfl)⟩

lemma mem_invalidate_students (c : List CacheEntry) (e : CacheEntry)
    (he : e ∈ invalidate_students_cache c) :
    globMatch "students:*".data e.key.data = false := by
  simp only [invalidate_students_cache, cacheInvalidate, List.mem_filter] at he
  simpa using he.2

/-- C6: a cache get immediately after a put with positive TTL hits and
returns the stored value; after an invalidation whose pattern matches the key,
the next get on that key is a miss; and invalidation removes exactly the
entries whose key matches the glob pattern. -/
theorem C6_cache_contract (c : List CacheEntry) (k v p : String) (ttl now : Nat)
    (httl : 0 < ttl) :
    cacheGet (cacheSetex c k ttl v now) k now = some v ∧
    (∀ c', globMatch p.data k.data = true →
      cacheGet (cacheInvalidate c' p) k now = none) ∧
    (∀ c' e, e ∈ cacheInvalidate c' p ↔
      e ∈ c' ∧ globMatch p.data e.key.data = false) := by
  refine ⟨?_, ?_, ?_⟩
  · simp [cacheGet, cacheSetex, List.find?_cons, httl]
  · intro c' hm
    have hnone : (cacheInvalidate c' p).find? (fun e => e.key == k) = none := by
      rw [List.find?_eq_none]
      intro e he
      rw [cacheInvalidate, List.mem_filter] at he
      intro hk
      rw [beq_iff_eq] at hk
      rw [hk] at he
      simp [hm] at he
    simp [cacheGet, hnone]
  · intro c' e
    simp [cacheInvalidate, List.mem_filter]

theorem C6_cache_contract_witness :
    (0 < 60 ∧
      cacheGet (cacheSetex [] "students:list" 60 "v" 0) "students:list" 0 =
        some "v") ∧
    (globMatch "students:*".data "students:list".data = true ∧
      cacheGet
        (cacheInvalidate
          (cacheSetex [] "students:list" 60 "v" 0) "students:*")
        "students:list" 0 = none) :=
  ⟨⟨by decide,
    (C6_cache_contract [] "students:list" "v" "students:*" 60 0 (by decide)).1⟩,
   by decide,
   (C6_cache_contract (cacheSetex [] "students:list" 60 "v" 0) "students:list"
      "v" "students:*" 60 0 (by decide)).2.1
     (cacheSetex [] "students:list" 60 "v" 0) (by decide)⟩

/-- C7: the requireWrite capability check rejects every read-only
principal with Forbidden before any of the five write handlers touches the
record store (store and cache are returned unchanged), passes every
non-read-only principal, and the capability is the two-valued `is_readonly`
flag — exactly read and read+write. -/
theorem C7_requireWrite_gate (u : User) (payload : StudentCreate)
    (upd : StudentUpdate) (sid : Nat) (rows : List CSVRow) (ids : List Nat)
    (store : List Student) (cache : List CacheEntry) :
    (u.is_readonly = true →
      require_write_user u = .error .forbidden ∧
      create_student u payload store cache = (.error .forbidden, store, cache) ∧
      update_student u sid upd store cache = (.error .forbidden, store, cache) ∧
      delete_student u sid store cache = (.error .forbidden, store, cache) ∧
      import_students_endpoint u rows store cache =
        (.error .forbidden, store, cache) ∧
      bulk_delete_endpoint u ids store cache =
        (.error .forbidden, store, cache)) ∧
    (u.is_readonly = false → require_write_user u = .ok u) ∧
    (u.is_readonly = true ∨ u.is_readonly = false) := by
  refine ⟨fun h => ?_, fun h => ?_, by cases u.is_readonly <;> simp⟩
  · refine ⟨?_, ?_, ?_, ?_, ?_, ?_⟩ <;>
      simp [require_write_user, h, create_student, update_student,
        delete_student, import_students_endpoint, bulk_delete_endpoint]
  · simp [require_write_user, h]

def userRO : User :=
  { id := 2, username := "viewer", password_hash := hash_password "pw",
    is_readonly := true, is_active := true }

def payloadW : StudentCreate :=
  { last_name := "Ivanov", first_name := "Petr", faculty := "FPMI",
    course := "Calculus", grade := 75 }

lemma isPrefixOf_append_self (cs xs : List Char) :
    cs.isPrefixOf (cs ++ xs) = true := by
  rw [List.isPrefixOf_iff_prefix]
  exact List.prefix_append cs xs

/-- A glob pattern of literal characters followed by one trailing `*` matches
exactly the keys having those characters as a prefix. -/
lemma globMatch_lit_star (cs ks : List Char)
    (hcs : ∀ ch ∈ cs, ch ≠ '*' ∧ ch ≠ '?') :
    globMatch (cs ++ ['*']) ks = cs.isPrefixOf ks := by
  induction cs generalizing ks with
  | nil =>
    rw [List.nil_append, List.isPrefixOf_nil_left]
    simp only [globMatch]
    rw [if_pos trivial, List.any_eq_true]
    exact ⟨ks.length, List.mem_range.mpr (Nat.lt_succ_self _), by simp⟩
  | cons c cs ih =>
    obtain ⟨hstar, hq⟩ := hcs c (List.mem_cons_self c cs)
    have hrest : ∀ ch ∈ cs, ch ≠ '*' ∧ ch ≠ '?' :=
      fun ch hch => hcs ch (List.mem_cons_of_mem c hch)
    cases ks with
    | nil =>
      rw [List.cons_append]
      simp only [globMatch]
      rw [if_neg hstar, if_neg hq]
      simp [List.isPrefixOf]
    | cons k ks' =>
      rw [List.cons_append]
      simp only [globMatch]
      rw [if_neg hstar, if_neg hq]
      simp [List.isPrefixOf, ih ks' hrest]

lemma students_key_matches (s : String) :
    globMatch "students:*".data ("students:" ++ s).data = true := by
  have h1 : "students:*".data = "students:".data ++ ['*'] := by decide
  rw [h1, String.data_append, globMatch_lit_star _ _ (by decide)]
  exact isPrefixOf_append_self _ _

/-- C5: every successful write to the students collection (create, update
by id, delete by id, the CSV-import task, and the bulk-delete task once it
commits) applies the `students:*` invalidation, so no cache entry whose key
matches that pattern survives the write; the pattern covers the list view and
every item view; and the read handlers store every entry they create with the
finite 60-second TTL. -/
theorem C5_mutations_invalidate (u : User) (payload : StudentCreate)
    (upd : StudentUpdate) (sid : Nat) (rows : List CSVRow) (ids : List Nat)
    (store : List Student) (cache : List CacheEntry) (now : Nat)
    (hw : u.is_readonly = false) (hids : ids ≠ []) :
    (∀ e ∈ (create_student u payload store cache).2.2,
      globMatch "students:*".data e.key.data = false) ∧
    (∀ s, (update_student u sid upd store cache).1 = .ok s →
      ∀ e ∈ (update_student u sid upd store cache).2.2,
        globMatch "students:*".data e.key.data = false) ∧
    ((delete_student u sid store cache).1 = .ok () →
      ∀ e ∈ (delete_student u sid store cache).2.2,
        globMatch "students:*".data e.key.data = false) ∧
    (∀ e ∈ (import_students_from_csv_task rows store cache).2,
      globMatch "students:*".data e.key.data = false) ∧
    (∀ e ∈ (bulk_delete_students_task ids store cache).2,
      globMatch "students:*".data e.key.data = false) ∧
    globMatch "students:*".data "students:list".data = true ∧
    (∀ i : Nat,
      globMatch "students:*".data ("students:" ++ toString i).data = true) ∧
    (∀ e ∈ (list_students store cache now).2,
      e ∈ cache ∨ e.expires_at = now + 60) ∧
    (∀ e ∈ (get_student sid store cache now).2,
      e ∈ cache ∨ e.expires_at = now + 60) := by
  refine ⟨?_, ?_, ?_, ?_, ?_, by decide, fun i => students_key_matches _, ?_, ?_⟩
  · intro e he
    simp only [create_student, require_write_user, hw, Bool.false_eq_true,
      if_false] at he
    exact mem_invalidate_students _ _ he
  · intro s hok e he
    simp only [update_student, require_write_user, hw, Bool.false_eq_true,
      if_false] at hok he
    rcases h : repoUpdate store sid upd with ⟨os, store'⟩
    rw [h] at hok he
    cases os with
    | none => simp at hok
    | some s' => exact mem_invalidate_students _ _ he
  · intro hok e he
    simp only [delete_student, require_write_user, hw, Bool.false_eq_true,
      if_false] at hok he
    rcases h : repoDelete store sid with ⟨ok, store'⟩
    rw [h] at hok he
    cases ok with
    | false => simp at hok
    | true => exact mem_invalidate_students _ _ he
  · intro e he
    exact mem_invalidate_students _ _ he
  · intro e he
    cases ids with
    | nil => exact absurd rfl hids
    | cons i is =>
      simp only [bulk_delete_students_task, List.isEmpty_cons,
        Bool.false_eq_true, if_false] at he
      exact mem_invalidate_students _ _ he
  · intro e he
    unfold list_students at he
    cases h : cacheGet cache "students:list" now with
    | some v =>
      rw [h] at he
      exact Or.inl he
    | none =>
      rw [h] at he
      simp only [cacheSetex, List.mem_cons, List.mem_filter] at he
      rcases he with he | he
      · exact Or.inr (by rw [he])
      · exact Or.inl he.1
  · intro e he
    unfold get_student at he
    cases h : cacheGet cache ("students:" ++ toString sid) now with
    | some v =>
      rw [h] at he
      exact Or.inl he
    | none =>
      rw [h] at he
      cases h2 : repoGet store sid with
      | none =>
        rw [h2] at he
        exact Or.inl he
      | some s =>
        rw [h2] at he
        simp only [cacheSetex, List.mem_cons, List.mem_filter] at he
        rcases he with he | he
        · exact Or.inr (by rw [he])
        · exact Or.inl he.1

def cacheW : List CacheEntry :=
  [{ key := "students:list", value := "v", expires_at := 60 },
   { key := "other", value := "w", expires_at := 60 }]

def entryOtherW : CacheEntry := { key := "other", value := "w", expires_at := 60 }

theorem C5_mutations_invalidate_witness :
    userW.is_readonly = false ∧ ([1] : List Nat) ≠ [] ∧
    globMatch "students:*".data entryOtherW.key.data = false :=
  ⟨by decide, by decide,
   (C5_mutations_invalidate userW payloadW
      { last_name := none, first_name := none, faculty := none,
        course := none, grade := none } 1 [] [1] [] cacheW 0
      (by decide) (by decide)).1 entryOtherW (by decide)⟩

theorem C7_requireWrite_gate_witness :
    create_student userRO payloadW [] [] = (.error .forbidden, [], []) ∧
    require_write_user userW = .ok userW :=
  ⟨((C7_requireWrite_gate userRO payloadW
      { last_name := none, first_name := none, faculty := none,
        course := none, grade := none } 1 [] [] [] []).1 (by decide)).2.1,
   (C7_requireWrite_gate userW payloadW
      { last_name := none, first_name := none, faculty := none,
        course := none, grade := none } 1 [] [] [] []).2.1 (by decide)⟩

end Magistracy
